import Mathlib

/-!
Shallow embedding of the alert-to-order execution pipeline of the
`algo_trader` repository (`server/services/orderExecution.js`, given as
`src/unnamed/part_005`): the `OrderExecutionService` class (symbol gate,
trading-hours gate, risk checks, order-parameter builder, order execution,
order-status reconciliation, trade-record creation) and the simplified
module-level `processAlert` auto-execute path.

Modelling conventions:
* JavaScript `undefined`/`null` object fields become `Option _`.
* JavaScript numbers become `ℚ`; `NaN` is modelled as `none` of `Option ℚ`
  in the places where the source can produce it (`undefined * x`), and
  every comparison against `none` is `false`, matching `NaN` comparison
  semantics.
* JavaScript `x || d` (falsy default) is modelled by helpers that treat
  `none`, `0` and `""` as falsy.
* Asynchronous database and broker effects become explicit state passing
  over a `DBState` record; a thrown exception becomes `Except.error` with
  the error message, and `try/catch` becomes discarding that error.
-/

/-- JS `x || d` for optional rationals: `undefined`/`null` and `0` are falsy. -/
def jsOrQ (o : Option ℚ) (d : ℚ) : ℚ :=
  match o with
  | none => d
  | some v => if v = 0 then d else v

/-- JS `x || d` for optional naturals: `undefined`/`null` and `0` are falsy. -/
def jsOrNat (o : Option ℕ) (d : ℕ) : ℕ :=
  match o with
  | none => d
  | some v => if v = 0 then d else v

/-- JS `x || d` for optional strings: `undefined`/`null` and `""` are falsy. -/
def jsOrStr (o : Option String) (d : String) : String :=
  match o with
  | none => d
  | some s => if s = "" then d else s

/-- JS `a || b` where both sides are optional numbers (used for
`orderParams.limitPrice || orderParams.stopPrice`): if `a` is truthy
(present and nonzero) the result is `a`, otherwise `b` as-is. -/
def jsFirstTruthyQ (a b : Option ℚ) : Option ℚ :=
  match a with
  | none => b
  | some v => if v = 0 then b else some v

/-- JS multiplication where either operand may be `undefined`:
`undefined * x` is `NaN`, modelled as `none`. -/
def jsMul (a b : Option ℚ) : Option ℚ :=
  match a, b with
  | some x, some y => some (x * y)
  | _, _ => none

/-- JS `>` against a possibly-`NaN` left operand: any comparison with `NaN`
is `false`. -/
def jsGtQ (a : Option ℚ) (b : ℚ) : Bool :=
  match a with
  | none => false
  | some v => decide (b < v)

/-- Whether an optional string field is truthy in JS (`present and nonempty`). -/
def jsTruthyStr (o : Option String) : Bool :=
  match o with
  | none => false
  | some s => !(s = "")

/-- The `strategies.config.tradingHours` sub-object. -/
structure TradingHours where
  startTime : Option String
  endTime : Option String
  deriving Repr, DecidableEq

/-- The `strategies.config.riskParams` sub-object. -/
structure RiskParams where
  maxPositions : Option ℕ
  dailyLossLimit : Option ℚ
  maxPositionSize : Option ℚ
  deriving Repr, DecidableEq

/-- The strategy `config` JSON blob, with exactly the fields the pipeline reads. -/
structure StrategyConfig where
  allowedSymbols : Option (List String)
  blockedSymbols : Option (List String)
  tradingHours : Option TradingHours
  riskParams : Option RiskParams
  defaultQuantity : Option ℚ
  orderType : Option String
  productType : Option String
  stopLoss : Option ℚ
  deriving Repr, DecidableEq

/-- A row of the `strategies` table as consumed by the pipeline. -/
structure Strategy where
  id : ℕ
  config : StrategyConfig
  deriving Repr, DecidableEq

/-- The inbound alert payload `{symbol, action, price?, quantity?}`. -/
structure AlertData where
  symbol : String
  action : String
  price : Option ℚ
  quantity : Option ℚ
  deriving Repr, DecidableEq

/-- Embedding of `OrderExecutionService.isSymbolAllowed(symbol, config)`. -/
def isSymbolAllowed (symbol : String) (config : StrategyConfig) : Bool :=
  let allowedSymbols := config.allowedSymbols.getD []
  let blockedSymbols := config.blockedSymbols.getD []
  if blockedSymbols.contains symbol then
    false
  else if allowedSymbols.length > 0 && !(allowedSymbols.contains symbol) then
    false
  else
    true

/-- Splitting on a single character, over the character list of the
string (JS `s.split(':')`): always returns at least one piece. -/
def splitOnChar (c : Char) : List Char → List (List Char)
  | [] => [[]]
  | x :: xs =>
    let r := splitOnChar c xs
    if x = c then [] :: r
    else
      match r with
      | [] => [[x]]
      | y :: ys => (x :: y) :: ys

/-- JS `Number(piece)` restricted to the clock-string digits the pipeline
feeds it: a nonempty all-digit piece parses to its value, anything else is
`NaN` (`none`). -/
def digitsToNat? (cs : List Char) : Option ℕ :=
  if cs = [] then none
  else cs.foldl (fun acc ch =>
    match acc with
    | none => none
    | some n => if ch.isDigit then some (n * 10 + (ch.toNat - 48)) else none) (some 0)

/-- Embedding of `"HH:MM".split(':').map(Number)` followed by `h*60+m`: `none` models the
`NaN` JS produces on a malformed clock string. -/
def parseClockMinutes (s : String) : Option ℕ :=
  match splitOnChar ':' s.data with
  | [h, m] =>
    match digitsToNat? h, digitsToNat? m with
    | some hh, some mm => some (hh * 60 + mm)
    | _, _ => none
  | _ => none

/-- Embedding of `OrderExecutionService.isWithinTradingHours(config)`. The wall clock read
`now.getHours()*60 + now.getMinutes()` is passed in as `now` (minutes since
midnight). A `NaN` start or end bound makes both JS comparisons false. -/
def isWithinTradingHours (config : StrategyConfig) (now : ℕ) : Bool :=
  let tradingHours := config.tradingHours.getD ⟨none, none⟩
  let startTime := jsOrStr tradingHours.startTime "09:15"
  let endTime := jsOrStr tradingHours.endTime "15:30"
  match parseClockMinutes startTime, parseClockMinutes endTime with
  | some startMinutes, some endMinutes =>
    decide (startMinutes ≤ now) && decide (now ≤ endMinutes)
  | _, _ => false

/-- Result record `{allowed, reason?}` of the risk evaluator. -/
structure RiskCheckResult where
  allowed : Bool
  reason : Option String
  deriving Repr, DecidableEq

/-- Embedding of `OrderExecutionService.performRiskChecks(userId, alertData, config)`.
The two awaited database reads are passed in: `currentPositions` is
`getActivePositionsCount(userId)` and `todayPnL` is `getTodayPnL(userId)`. -/
def performRiskChecks (alertData : AlertData) (config : StrategyConfig)
    (currentPositions : ℕ) (todayPnL : ℚ) : RiskCheckResult :=
  let riskParams := config.riskParams.getD ⟨none, none, none⟩
  let maxPositions := jsOrNat riskParams.maxPositions 10
  if currentPositions ≥ maxPositions then
    ⟨false, some "Maximum positions limit reached"⟩
  else
    let dailyLossLimit := jsOrQ riskParams.dailyLossLimit 10000
    if todayPnL ≤ -dailyLossLimit then
      ⟨false, some "Daily loss limit reached"⟩
    else
      let maxPositionSize := jsOrQ riskParams.maxPositionSize 100000
      let positionValue := jsMul alertData.price alertData.quantity
      if jsGtQ positionValue maxPositionSize then
        ⟨false, some "Position size exceeds limit"⟩
      else
        ⟨true, none⟩

/-- The normalized order request built by `generateOrderParams`. A field the
source leaves unset (or sets to `undefined`/`NaN`) is `none`. -/
structure OrderParams where
  symbol : String
  side : String
  qty : ℚ
  type : String
  productType : String
  limitPrice : Option ℚ
  stopPrice : Option ℚ
  deriving Repr, DecidableEq

/-- The `orderParams` object literal built inside
`OrderExecutionService.generateOrderParams(userId, alertData, config)`. -/
def builtOrderParams (alertData : AlertData) (config : StrategyConfig) :
    OrderParams :=
  let ty := jsOrStr config.orderType "MARKET"
  { symbol := alertData.symbol
    side := alertData.action
    qty := jsOrQ alertData.quantity (jsOrQ config.defaultQuantity 1)
    type := ty
    productType := jsOrStr config.productType "INTRADAY"
    limitPrice := if ty = "LIMIT" then alertData.price else none
    stopPrice :=
      match config.stopLoss with
      | some sl =>
        if sl ≠ 0 ∧ alertData.action = "BUY" then
          jsMul alertData.price (some (1 - sl / 100))
        else none
      | none => none }

/-- Embedding of `OrderExecutionService.generateOrderParams(userId, alertData, config)`.
The JS function has a single `return orderParams` of the freshly built
object, so the embedded result is always `some _`: a `none` result would
correspond to the function returning `null`/`undefined`, which no path
does. -/
def generateOrderParams (alertData : AlertData) (config : StrategyConfig) :
    Option OrderParams :=
  some (builtOrderParams alertData config)

/-- A row of the `orders` table, with the columns the pipeline writes. -/
structure OrderRow where
  id : ℕ
  userId : ℕ
  strategyId : Option ℕ
  alertId : ℕ
  symbol : String
  side : String
  quantity : ℚ
  orderType : String
  price : Option ℚ
  status : String
  fyersOrderId : Option String
  deriving Repr, DecidableEq

/-- A row of the `trades` table, with the columns `createTradeRecord` writes. -/
structure TradeRow where
  userId : ℕ
  orderId : ℕ
  symbol : String
  side : String
  quantity : ℚ
  price : ℚ
  charges : ℚ
  deriving Repr, DecidableEq

/-- A row of the `positions` table (here only observed: the pipeline under
`src/unnamed/part_005` never inserts or updates positions). -/
structure PositionRow where
  userId : ℕ
  symbol : String
  quantity : ℚ
  avgPrice : ℚ
  isActive : Bool
  deriving Repr, DecidableEq

/-- Decrypted FYERS credentials as read from `settings.fyers_credentials`. -/
structure Credentials where
  accessToken : Option String
  deriving Repr, DecidableEq

/-- An entry of the broker order book returned by `fyersAPI.getOrderBook`. -/
structure FyersOrder where
  id : String
  status : String
  filledQty : ℚ
  avgPrice : ℚ
  charges : Option ℚ
  deriving Repr, DecidableEq

/-- The broker response to `fyersAPI.placeOrder`. -/
structure FyersResponse where
  id : String
  deriving Repr, DecidableEq

/-- The mutable state the pipeline touches: the relevant tables, the alert
row's persisted status, plus two observation logs — the arguments of every
`updateAlertStatus` call and of every `fyersAPI.placeOrder` call. -/
structure DBState where
  orders : List OrderRow
  trades : List TradeRow
  positions : List PositionRow
  alertStatus : Option String
  alertCalls : List (String × Option String)
  brokerCalls : List OrderParams
  deriving Repr, DecidableEq

/-- Embedding of `OrderExecutionService.updateAlertStatus(alertId, status, message)`:
persists the status (and `processed_at`); the message is only logged, which
the model records in `alertCalls`. -/
def updateAlertStatus (s : DBState) (status : String) (message : Option String) :
    DBState :=
  { s with
    alertStatus := some status
    alertCalls := s.alertCalls ++ [(status, message)] }

/-- The external behaviour `executeOrder` depends on: the user's decrypted
credentials (result of `getUserCredentials`) and the broker's reply to the
n-th `placeOrder` call of the run (`Except.error msg` models a throw). -/
structure ExecEnv where
  credentials : Option Credentials
  brokerResult : ℕ → Except String FyersResponse

/-- The `orders` row inserted by `executeOrder`'s
`INSERT INTO orders ... VALUES (..., 'PENDING') RETURNING id`, with
`price = orderParams.limitPrice || orderParams.stopPrice`. -/
def pendingOrderRow (userId strategyId alertId : ℕ) (orderParams : OrderParams)
    (orderId : ℕ) : OrderRow :=
  { id := orderId
    userId := userId
    strategyId := some strategyId
    alertId := alertId
    symbol := orderParams.symbol
    side := orderParams.side
    quantity := orderParams.qty
    orderType := orderParams.type
    price := jsFirstTruthyQ orderParams.limitPrice orderParams.stopPrice
    status := "PENDING"
    fyersOrderId := none }

/-- The per-row effect of `executeOrder`'s
`UPDATE orders SET fyers_order_id = $1, ..., status = 'SUBMITTED' WHERE id = $3`. -/
def submitUpdate (orderId : ℕ) (fyersResponse : FyersResponse) (o : OrderRow) :
    OrderRow :=
  if o.id = orderId then
    { o with fyersOrderId := some fyersResponse.id, status := "SUBMITTED" }
  else o

/-- Embedding of `OrderExecutionService.executeOrder(userId, alertId, strategyId,
orderParams)`. Returns the state after all writes together with `.ok` on
the success path or `.error msg` when the JS function throws (the `catch`
block updates the alert to ERROR and re-throws). The new order row's id is
the insert's `RETURNING id`, modelled as the orders-table length. -/
def executeOrder (env : ExecEnv) (userId alertId strategyId : ℕ)
    (orderParams : OrderParams) (s : DBState) : DBState × Except String ℕ :=
  if !(env.credentials.isSome && jsTruthyStr ((env.credentials.getD ⟨none⟩).accessToken)) then
    (updateAlertStatus s "ERROR" (some "Fyers credentials not found"),
     .error "Fyers credentials not found")
  else
    let orderId := s.orders.length
    let s1 := { s with orders := s.orders ++ [pendingOrderRow userId strategyId alertId orderParams orderId] }
    let callIndex := s1.brokerCalls.length
    let s2 := { s1 with brokerCalls := s1.brokerCalls ++ [orderParams] }
    match env.brokerResult callIndex with
    | .error msg =>
      (updateAlertStatus s2 "ERROR" (some msg), .error msg)
    | .ok fyersResponse =>
      let s3 := { s2 with orders := s2.orders.map (submitUpdate orderId fyersResponse) }
      (updateAlertStatus s3 "PROCESSED" (some "Order placed successfully"), .ok orderId)

/-- Embedding of `OrderExecutionService.processAlertForStrategy(userId, alertId,
alertData, strategy)`. The wall clock and the two risk-check database reads
are passed in (`now`, `currentPositions`, `todayPnL`). `.ok` covers every
early `return`; `.error` is a throw escaping to `processAlert`'s per-strategy
`catch`. The `if (!orderParams)` guard of the source is represented by the
`Option` match; `generateOrderParams` never returns `none`. -/
def processAlertForStrategy (env : ExecEnv) (now : ℕ)
    (currentPositions : ℕ) (todayPnL : ℚ) (userId alertId : ℕ)
    (alertData : AlertData) (strategy : Strategy) (s : DBState) :
    DBState × Except String Unit :=
  let config := strategy.config
  if !(isSymbolAllowed alertData.symbol config) then
    (s, .ok ())
  else if !(isWithinTradingHours config now) then
    (s, .ok ())
  else
    let riskCheck := performRiskChecks alertData config currentPositions todayPnL
    if !riskCheck.allowed then
      (s, .ok ())
    else
      match generateOrderParams alertData config with
      | none => (s, .ok ())
      | some orderParams =>
        let (s1, r) := executeOrder env userId alertId strategy.id orderParams s
        (s1, r.map (fun _ => ()))

/-- The per-strategy loop of `OrderExecutionService.processAlert`: each
strategy's error is caught and logged (`catch (strategyError)`), so the fold
keeps the state and discards the `Except`. -/
def processStrategies (env : ExecEnv) (now : ℕ)
    (currentPositions : ℕ) (todayPnL : ℚ) (userId alertId : ℕ)
    (alertData : AlertData) (strategies : List Strategy) (s : DBState) : DBState :=
  strategies.foldl
    (fun st strategy =>
      (processAlertForStrategy env now currentPositions todayPnL
        userId alertId alertData strategy st).1)
    s

/-- Embedding of `OrderExecutionService.processAlert(userId, alertId, alertData)`: load
the user's active strategies (passed in as `strategies`); mark the alert
IGNORED when there are none, else run every strategy under the per-strategy
catch. -/
def processAlert (env : ExecEnv) (now : ℕ)
    (currentPositions : ℕ) (todayPnL : ℚ) (userId alertId : ℕ)
    (alertData : AlertData) (strategies : List Strategy) (s : DBState) : DBState :=
  if strategies.isEmpty then
    updateAlertStatus s "IGNORED" (some "No active strategies")
  else
    processStrategies env now currentPositions todayPnL userId alertId
      alertData strategies s

/-- Embedding of `OrderExecutionService.createTradeRecord(orderData, fyersOrder)`: insert
one `trades` row; the whole body is inside `try/catch` whose catch only
logs, so a failing insert (`tradeInsertFails`) leaves the state unchanged
and the function still returns normally. No positions-table write occurs. -/
def createTradeRecord (orderData : OrderRow) (fyersOrder : FyersOrder)
    (tradeInsertFails : Bool) (s : DBState) : DBState :=
  if tradeInsertFails then
    s
  else
    { s with
      trades := s.trades ++
        [{ userId := orderData.userId
           orderId := orderData.id
           symbol := orderData.symbol
           side := orderData.side
           quantity := fyersOrder.filledQty
           price := fyersOrder.avgPrice
           charges := jsOrQ fyersOrder.charges 0 }] }

/-- Helper for the reconciler's `UPDATE orders SET status = $1 WHERE id = $3`. -/
def setOrderStatus (s : DBState) (orderId : ℕ) (status : String) : DBState :=
  { s with
    orders := s.orders.map (fun o => if o.id = orderId then { o with status := status } else o) }

/-- Embedding of `OrderExecutionService.monitorOrderStatus(orderId)`. The awaited
externals are passed in: the owner's decrypted credentials, the broker order
book, and whether the trade insert inside `createTradeRecord` fails.
`.error` models the re-thrown exceptions of the catch block; the returned
row is the one read at the start (`orderData`), as in the source. -/
def monitorOrderStatus (credentials : Option Credentials)
    (orderBook : List FyersOrder) (tradeInsertFails : Bool)
    (orderId : ℕ) (s : DBState) : DBState × Except String OrderRow :=
  match s.orders.find? (fun o => o.id = orderId) with
  | none => (s, .error "Order not found")
  | some orderData =>
    match orderData.fyersOrderId with
    | none => (s, .ok orderData)
    | some fyersOrderId =>
      match credentials with
      | none => (s, .error "User credentials not found")
      | some _ =>
        match orderBook.find? (fun o => o.id = fyersOrderId) with
        | none => (s, .ok orderData)
        | some fyersOrder =>
          let s1 := setOrderStatus s orderId fyersOrder.status
          let s2 :=
            if fyersOrder.status = "FILLED" then
              createTradeRecord orderData fyersOrder tradeInsertFails s1
            else s1
          (s2, .ok orderData)

/-- The `settings` row read by the simplified module-level `processAlert`:
`auto_execute_enabled` and the parsed `fyers_credentials` JSON. -/
structure Settings where
  autoExecuteEnabled : Option Bool
  fyersCredentials : Option Credentials
  deriving Repr, DecidableEq

/-- Outcome of the simplified auto-execute path. -/
inductive SimpleResult where
  | skipped
  | submitted (fyersOrderId : String)
  deriving Repr, DecidableEq

/-- The module-level simplified `processAlert(userId, alertId, alertData)`
(auto-execute path): skip unless `auto_execute_enabled === true` and an
access token is present; otherwise place a MARKET order whose side is
`alertData.action === 'SELL' ? 'SELL' : 'BUY'` and insert the order row as
SUBMITTED. The catch block re-throws, so a broker failure is `.error`. -/
def processAlertSimple (settings : Option Settings)
    (brokerResult : ℕ → Except String FyersResponse)
    (userId alertId : ℕ) (alertData : AlertData) (s : DBState) :
    DBState × Except String SimpleResult :=
  let autoExecute := (settings.bind (·.autoExecuteEnabled)).getD false
  let credentials := settings.bind (·.fyersCredentials)
  if !(autoExecute && credentials.isSome && jsTruthyStr ((credentials.getD ⟨none⟩).accessToken)) then
    (s, .ok .skipped)
  else
    let orderParams : OrderParams :=
      { symbol := alertData.symbol
        side := if alertData.action = "SELL" then "SELL" else "BUY"
        qty := jsOrQ alertData.quantity 1
        type := "MARKET"
        productType := "INTRADAY"
        limitPrice := none
        stopPrice := none }
    let callIndex := s.brokerCalls.length
    let s1 := { s with brokerCalls := s.brokerCalls ++ [orderParams] }
    match brokerResult callIndex with
    | .error msg => (s1, .error msg)
    | .ok fyersOrder =>
      let newRow : OrderRow :=
        { id := s1.orders.length
          userId := userId
          strategyId := none
          alertId := alertId
          symbol := orderParams.symbol
          side := orderParams.side
          quantity := orderParams.qty
          orderType := "MARKET"
          price := none
          status := "SUBMITTED"
          fyersOrderId := some fyersOrder.id }
      ({ s1 with orders := s1.orders ++ [newRow] }, .ok (.submitted fyersOrder.id))

/-- A strategy config with every field absent, so every default applies. -/
def emptyConfig : StrategyConfig := ⟨none, none, none, none, none, none, none, none⟩

/-- An empty database state. -/
def emptyDB : DBState := ⟨[], [], [], none, [], []⟩

/-- C5: the risk evaluator's limit checks are boundary-exact with the stated
defaults (maxPositions 10, dailyLossLimit 10000, maxPositionSize 100000):
a count of 10 active positions rejects with the max-positions reason while 9
passes that check; today's P&L at or below -10000 rejects with the
daily-loss reason while any value strictly above passes; `price * quantity`
strictly above 100000 rejects with the position-size reason while exactly
100000 passes. -/
theorem performRiskChecks_boundary_exact
    (alertData : AlertData) (config : StrategyConfig) (p q : ℚ)
    (hrp : config.riskParams = none)
    (hp : alertData.price = some p) (hq : alertData.quantity = some q) :
    (∀ pnl : ℚ, performRiskChecks alertData config 10 pnl =
        ⟨false, some "Maximum positions limit reached"⟩) ∧
    (∀ pnl : ℚ, pnl ≤ -10000 → performRiskChecks alertData config 9 pnl =
        ⟨false, some "Daily loss limit reached"⟩) ∧
    (∀ pnl : ℚ, -10000 < pnl → 100000 < p * q →
        performRiskChecks alertData config 9 pnl =
        ⟨false, some "Position size exceeds limit"⟩) ∧
    (∀ pnl : ℚ, -10000 < pnl → p * q ≤ 100000 →
        performRiskChecks alertData config 9 pnl = ⟨true, none⟩) := by
  refine ⟨fun pnl => ?_, fun pnl h => ?_, fun pnl h1 h2 => ?_, fun pnl h1 h2 => ?_⟩
  · simp [performRiskChecks, hrp, jsOrNat, jsOrQ, jsMul, jsGtQ, hp, hq]
  · simp [performRiskChecks, hrp, jsOrNat, jsOrQ, jsMul, jsGtQ, hp, hq, h]
  · have h1' : ¬ pnl ≤ -10000 := not_le.mpr h1
    simp [performRiskChecks, hrp, jsOrNat, jsOrQ, jsMul, jsGtQ, hp, hq, h1', h2]
  · have h1' : ¬ pnl ≤ -10000 := not_le.mpr h1
    have h2' : ¬ (100000 : ℚ) < p * q := not_lt.mpr h2
    simp [performRiskChecks, hrp, jsOrNat, jsOrQ, jsMul, jsGtQ, hp, hq, h1', h2']

/-- Witness for C5 at concrete inputs, including the inclusive
position-size boundary 100 * 1000 = 100000. -/
theorem performRiskChecks_boundary_exact_witness :
    performRiskChecks ⟨"RELIANCE", "BUY", some 100, some 1000⟩ emptyConfig 10 0 =
      ⟨false, some "Maximum positions limit reached"⟩ ∧
    performRiskChecks ⟨"RELIANCE", "BUY", some 100, some 1000⟩ emptyConfig 9 0 =
      ⟨true, none⟩ := by
  have h := performRiskChecks_boundary_exact ⟨"RELIANCE", "BUY", some 100, some 1000⟩
    emptyConfig 100 1000 rfl rfl rfl
  exact ⟨h.1 0, h.2.2.2 0 (by norm_num) (by norm_num)⟩

/-- C9: when the alert's price or quantity is absent, `price * quantity` is
NaN, every comparison against NaN is false, and so the position-size check
never fires: the evaluator never returns the position-size rejection. -/
theorem performRiskChecks_missing_field_skips_size_check
    (alertData : AlertData) (config : StrategyConfig)
    (currentPositions : ℕ) (todayPnL : ℚ)
    (h : alertData.price = none ∨ alertData.quantity = none) :
    (performRiskChecks alertData config currentPositions todayPnL).reason ≠
      some "Position size exceeds limit" := by
  have hmul : jsMul alertData.price alertData.quantity = none := by
    rcases h with h | h
    · simp [jsMul, h]
    · rw [h]; cases alertData.price <;> rfl
  simp only [performRiskChecks, hmul]
  split
  · simp
  · split
    · simp
    · simp [jsGtQ]

/-- Witness for C9: an alert with no price passes the size check even with a
tiny limit and huge quantity. -/
theorem performRiskChecks_missing_field_skips_size_check_witness :
    (performRiskChecks ⟨"RELIANCE", "BUY", none, some 1000000⟩
      { emptyConfig with riskParams := some ⟨none, none, some 1⟩ } 0 0).reason ≠
      some "Position size exceeds limit" :=
  performRiskChecks_missing_field_skips_size_check
    ⟨"RELIANCE", "BUY", none, some 1000000⟩
    { emptyConfig with riskParams := some ⟨none, none, some 1⟩ } 0 0 (Or.inl rfl)

/-- An execution environment with valid credentials and an always-successful
broker. -/
def okEnv : ExecEnv := ⟨some ⟨some "token"⟩, fun _ => .ok ⟨"FY1"⟩⟩

/-- C6: the blocked-symbols check takes precedence — a blocked symbol is
rejected regardless of the rest of the configuration, and then the whole
strategy branch is a no-op (no order built, no state change); a non-empty
allow-list lacking the symbol rejects; an empty allow-list permits any
symbol that is not blocked. -/
theorem isSymbolAllowed_spec (symbol : String) (config : StrategyConfig) :
    ((config.blockedSymbols.getD []).contains symbol = true →
      isSymbolAllowed symbol config = false) ∧
    (config.allowedSymbols.getD [] ≠ [] →
      (config.allowedSymbols.getD []).contains symbol = false →
      isSymbolAllowed symbol config = false) ∧
    (config.allowedSymbols.getD [] = [] →
      (config.blockedSymbols.getD []).contains symbol = false →
      isSymbolAllowed symbol config = true) ∧
    (∀ (env : ExecEnv) (now currentPositions : ℕ) (todayPnL : ℚ)
       (userId alertId : ℕ) (alertData : AlertData) (strategy : Strategy)
       (s : DBState),
      strategy.config = config → alertData.symbol = symbol →
      (config.blockedSymbols.getD []).contains symbol = true →
      processAlertForStrategy env now currentPositions todayPnL
        userId alertId alertData strategy s = (s, .ok ())) := by
  refine ⟨fun h => ?_, fun hne h => ?_, fun ha hb => ?_,
    fun env now cp pnl u a alertData strategy s hcfg hsym h => ?_⟩
  · have h' : symbol ∈ config.blockedSymbols.getD [] := by simpa using h
    simp [isSymbolAllowed, h']
  · have h' : symbol ∉ config.allowedSymbols.getD [] := by simpa using h
    have hlen : 0 < (config.allowedSymbols.getD []).length :=
      List.length_pos.mpr hne
    simp [isSymbolAllowed, hlen, h']
  · have hb' : symbol ∉ config.blockedSymbols.getD [] := by simpa using hb
    simp [isSymbolAllowed, ha, hb']
  · have hfalse : isSymbolAllowed symbol config = false := by
      have h' : symbol ∈ config.blockedSymbols.getD [] := by simpa using h
      simp [isSymbolAllowed, h']
    simp [processAlertForStrategy, hcfg, hsym, hfalse]

/-- Witness for C6: blocked wins over an allow-list that contains the
symbol; a non-empty allow-list without the symbol rejects; an empty
allow-list with nothing blocked allows; a blocked symbol leaves the
database untouched. -/
theorem isSymbolAllowed_spec_witness :
    isSymbolAllowed "TCS"
      { emptyConfig with blockedSymbols := some ["TCS"],
                         allowedSymbols := some ["TCS", "INFY"] } = false ∧
    isSymbolAllowed "TCS" { emptyConfig with allowedSymbols := some ["INFY"] } = false ∧
    isSymbolAllowed "TCS" emptyConfig = true ∧
    processAlertForStrategy okEnv 600 0 0 7 42 ⟨"TCS", "BUY", some 100, some 1⟩
      ⟨1, { emptyConfig with blockedSymbols := some ["TCS"] }⟩ emptyDB =
      (emptyDB, .ok ()) := by
  refine ⟨(isSymbolAllowed_spec "TCS" _).1 (by decide),
    (isSymbolAllowed_spec "TCS" _).2.1 (by decide) (by decide),
    (isSymbolAllowed_spec "TCS" _).2.2.1 (by decide) (by decide),
    (isSymbolAllowed_spec "TCS" _).2.2.2 okEnv 600 0 0 7 42 _ _ _ rfl rfl (by decide)⟩

/-- C7: the trading-hours gate passes exactly when the current time of day
(minutes since midnight) lies in `[startTime, endTime]`, both boundaries
inclusive; an absent start bound defaults to 09:15 (555 minutes) and an
absent end bound to 15:30 (930 minutes). -/
theorem isWithinTradingHours_spec (config : StrategyConfig) (now sm em : ℕ)
    (hs : parseClockMinutes
      (jsOrStr (config.tradingHours.getD ⟨none, none⟩).startTime "09:15") = some sm)
    (he : parseClockMinutes
      (jsOrStr (config.tradingHours.getD ⟨none, none⟩).endTime "15:30") = some em) :
    (isWithinTradingHours config now = true ↔ (sm ≤ now ∧ now ≤ em)) ∧
    ((config.tradingHours.getD ⟨none, none⟩).startTime = none → sm = 555) ∧
    ((config.tradingHours.getD ⟨none, none⟩).endTime = none → em = 930) := by
  refine ⟨?_, fun h => ?_, fun h => ?_⟩
  · simp [isWithinTradingHours, hs, he]
  · rw [h] at hs
    have : parseClockMinutes (jsOrStr none "09:15") = some 555 := by decide
    rw [this] at hs
    exact (Option.some_inj.mp hs).symm
  · rw [h] at he
    have : parseClockMinutes (jsOrStr none "15:30") = some 930 := by decide
    rw [this] at he
    exact (Option.some_inj.mp he).symm

/-- Witness for C7: with no configured window, 09:15 and 15:30 are inside
(inclusive boundaries) and 09:14 is outside; a configured window is honoured. -/
theorem isWithinTradingHours_spec_witness :
    isWithinTradingHours emptyConfig 555 = true ∧
    isWithinTradingHours emptyConfig 930 = true ∧
    isWithinTradingHours emptyConfig 554 = false ∧
    isWithinTradingHours
      { emptyConfig with tradingHours := some ⟨some "10:00", some "11:00"⟩ } 600 = true := by
  have h1 := (isWithinTradingHours_spec emptyConfig 555 555 930 (by decide) (by decide)).1
  have h2 := (isWithinTradingHours_spec emptyConfig 930 555 930 (by decide) (by decide)).1
  have h3 := (isWithinTradingHours_spec emptyConfig 554 555 930 (by decide) (by decide)).1
  have h4 := (isWithinTradingHours_spec
    { emptyConfig with tradingHours := some ⟨some "10:00", some "11:00"⟩ }
    600 600 660 (by decide) (by decide)).1
  refine ⟨h1.mpr (by omega), h2.mpr (by omega), ?_, h4.mpr (by omega)⟩
  cases hv : isWithinTradingHours emptyConfig 554
  · rfl
  · exact absurd (h3.mp hv).1 (by omega)

/-- An execution environment with valid credentials whose broker call
always throws. -/
def failEnv : ExecEnv := ⟨some ⟨some "token"⟩, fun _ => .error "Broker down"⟩

/-- Shape of `executeOrder` when credentials are valid and the broker call
throws: order inserted PENDING, broker called once, alert set ERROR with
the thrown message, error re-thrown. -/
theorem executeOrder_broker_error_eq (env : ExecEnv)
    (userId alertId strategyId : ℕ) (orderParams : OrderParams) (s : DBState)
    (msg : String)
    (hcred : env.credentials.isSome = true)
    (htok : jsTruthyStr ((env.credentials.getD ⟨none⟩).accessToken) = true)
    (hbk : env.brokerResult s.brokerCalls.length = .error msg) :
    executeOrder env userId alertId strategyId orderParams s =
      ({ orders := s.orders ++
           [pendingOrderRow userId strategyId alertId orderParams s.orders.length]
         trades := s.trades
         positions := s.positions
         alertStatus := some "ERROR"
         alertCalls := s.alertCalls ++ [("ERROR", some msg)]
         brokerCalls := s.brokerCalls ++ [orderParams] }, .error msg) := by
  simp [executeOrder, hcred, htok, hbk, updateAlertStatus]

/-- Shape of `executeOrder` when credentials are valid and the broker call
succeeds: order inserted then updated to SUBMITTED with the broker id,
alert set PROCESSED. -/
theorem executeOrder_broker_ok_eq (env : ExecEnv)
    (userId alertId strategyId : ℕ) (orderParams : OrderParams) (s : DBState)
    (resp : FyersResponse)
    (hcred : env.credentials.isSome = true)
    (htok : jsTruthyStr ((env.credentials.getD ⟨none⟩).accessToken) = true)
    (hbk : env.brokerResult s.brokerCalls.length = .ok resp) :
    executeOrder env userId alertId strategyId orderParams s =
      ({ orders := (s.orders ++
           [pendingOrderRow userId strategyId alertId orderParams s.orders.length]).map
             (submitUpdate s.orders.length resp)
         trades := s.trades
         positions := s.positions
         alertStatus := some "PROCESSED"
         alertCalls := s.alertCalls ++ [("PROCESSED", some "Order placed successfully")]
         brokerCalls := s.brokerCalls ++ [orderParams] }, .ok s.orders.length) := by
  simp [executeOrder, hcred, htok, hbk, updateAlertStatus]

/-- When all three gates pass, `processAlertForStrategy` is exactly
`executeOrder` on the built parameters. -/
theorem processAlertForStrategy_gates_pass (env : ExecEnv) (now : ℕ)
    (currentPositions : ℕ) (todayPnL : ℚ) (userId alertId : ℕ)
    (alertData : AlertData) (strategy : Strategy) (s : DBState)
    (h1 : isSymbolAllowed alertData.symbol strategy.config = true)
    (h2 : isWithinTradingHours strategy.config now = true)
    (h3 : (performRiskChecks alertData strategy.config currentPositions todayPnL).allowed = true) :
    processAlertForStrategy env now currentPositions todayPnL
        userId alertId alertData strategy s =
      ((executeOrder env userId alertId strategy.id
          (builtOrderParams alertData strategy.config) s).1,
       (executeOrder env userId alertId strategy.id
          (builtOrderParams alertData strategy.config) s).2.map (fun _ => ())) := by
  simp [processAlertForStrategy, h1, h2, h3, generateOrderParams]

/-- C4: for every order execution in which the broker call throws after the
Order row was inserted, the alert is marked ERROR with a message equal to
the thrown error's message, the inserted Order row remains PENDING (never
deleted, never advanced to SUBMITTED), and no Trade row is created. -/
theorem executeOrder_broker_failure (env : ExecEnv)
    (userId alertId strategyId : ℕ) (orderParams : OrderParams) (s : DBState)
    (msg : String)
    (hcred : env.credentials.isSome = true)
    (htok : jsTruthyStr ((env.credentials.getD ⟨none⟩).accessToken) = true)
    (hbk : env.brokerResult s.brokerCalls.length = .error msg) :
    (executeOrder env userId alertId strategyId orderParams s).1.orders =
      s.orders ++ [pendingOrderRow userId strategyId alertId orderParams s.orders.length] ∧
    (pendingOrderRow userId strategyId alertId orderParams s.orders.length).status
      = "PENDING" ∧
    (executeOrder env userId alertId strategyId orderParams s).1.trades = s.trades ∧
    (executeOrder env userId alertId strategyId orderParams s).1.alertStatus
      = some "ERROR" ∧
    (executeOrder env userId alertId strategyId orderParams s).1.alertCalls
      = s.alertCalls ++ [("ERROR", some msg)] ∧
    (executeOrder env userId alertId strategyId orderParams s).2 = .error msg := by
  rw [executeOrder_broker_error_eq env userId alertId strategyId orderParams s msg
    hcred htok hbk]
  exact ⟨rfl, rfl, rfl, rfl, rfl, rfl⟩

/-- Witness for C4: a concrete broker failure leaves a single PENDING order,
an empty trades table, and the alert at ERROR with the broker's message. -/
theorem executeOrder_broker_failure_witness :
    (executeOrder failEnv 7 42 1 ⟨"RELIANCE", "BUY", 1, "MARKET", "INTRADAY", none, none⟩
      emptyDB).1.trades = [] ∧
    (executeOrder failEnv 7 42 1 ⟨"RELIANCE", "BUY", 1, "MARKET", "INTRADAY", none, none⟩
      emptyDB).1.alertStatus = some "ERROR" ∧
    (executeOrder failEnv 7 42 1 ⟨"RELIANCE", "BUY", 1, "MARKET", "INTRADAY", none, none⟩
      emptyDB).1.alertCalls = [("ERROR", some "Broker down")] := by
  have h := executeOrder_broker_failure failEnv 7 42 1
    ⟨"RELIANCE", "BUY", 1, "MARKET", "INTRADAY", none, none⟩ emptyDB "Broker down"
    rfl rfl rfl
  exact ⟨h.2.2.1, h.2.2.2.1, h.2.2.2.2.1⟩

/-- C3 counterexample: for a LIMIT strategy configuration and an alert with
no price, the builder does NOT return null — it returns a params object
(with `limitPrice` left undefined), and the strategy branch still inserts
an Order row and calls the broker. -/
theorem generateOrderParams_limit_no_price_counterexample :
    generateOrderParams ⟨"RELIANCE", "BUY", none, some 1⟩
      { emptyConfig with orderType := some "LIMIT" } ≠ none ∧
    (processAlertForStrategy okEnv 600 0 0 7 42 ⟨"RELIANCE", "BUY", none, some 1⟩
      ⟨1, { emptyConfig with orderType := some "LIMIT" }⟩ emptyDB).1.orders.length = 1 ∧
    (processAlertForStrategy okEnv 600 0 0 7 42 ⟨"RELIANCE", "BUY", none, some 1⟩
      ⟨1, { emptyConfig with orderType := some "LIMIT" }⟩ emptyDB).1.brokerCalls.length
      = 1 := by
  refine ⟨by simp [generateOrderParams], ?_, ?_⟩ <;> rfl

/-- C3 (amended): the Order Parameter Builder never returns null. For a
LIMIT order type with the alert price absent it returns a params object
whose `limitPrice` is undefined (the order path proceeds with it); for a
MARKET order type with no price it returns a valid params object. -/
theorem generateOrderParams_limit_behavior (alertData : AlertData)
    (config : StrategyConfig) (hp : alertData.price = none) :
    (generateOrderParams alertData config).isSome = true ∧
    (config.orderType = some "LIMIT" →
      ∃ p, generateOrderParams alertData config = some p ∧
        p.type = "LIMIT" ∧ p.limitPrice = none) ∧
    (config.orderType = none →
      ∃ p, generateOrderParams alertData config = some p ∧
        p.type = "MARKET" ∧ p.limitPrice = none) := by
  refine ⟨rfl, fun h => ⟨builtOrderParams alertData config, rfl, ?_, ?_⟩,
    fun h => ⟨builtOrderParams alertData config, rfl, ?_, ?_⟩⟩ <;>
    simp [builtOrderParams, jsOrStr, h, hp]

/-- Witness for C3 (amended): concrete LIMIT-with-no-price and
MARKET-with-no-price alerts both produce params objects. -/
theorem generateOrderParams_limit_behavior_witness :
    (∃ p, generateOrderParams ⟨"RELIANCE", "BUY", none, some 1⟩
        { emptyConfig with orderType := some "LIMIT" } = some p ∧
      p.type = "LIMIT" ∧ p.limitPrice = none) ∧
    (∃ p, generateOrderParams ⟨"RELIANCE", "BUY", none, some 1⟩ emptyConfig = some p ∧
      p.type = "MARKET" ∧ p.limitPrice = none) :=
  ⟨(generateOrderParams_limit_behavior ⟨"RELIANCE", "BUY", none, some 1⟩
      { emptyConfig with orderType := some "LIMIT" } rfl).2.1 rfl,
   (generateOrderParams_limit_behavior ⟨"RELIANCE", "BUY", none, some 1⟩
      emptyConfig rfl).2.2 rfl⟩

/-- The `submitUpdate` map never changes the side column. -/
theorem submitUpdate_side (orderId : ℕ) (resp : FyersResponse) (o : OrderRow) :
    (submitUpdate orderId resp o).side = o.side := by
  unfold submitUpdate
  split <;> rfl

/-- C2 counterexample: a HOLD alert is not filtered. In the per-strategy
path it creates an Order row with side "HOLD" and calls the broker; in the
simplified auto-execute path it is coerced to a BUY order. -/
theorem processAlert_hold_counterexample :
    (processAlertForStrategy okEnv 600 0 0 7 42 ⟨"RELIANCE", "HOLD", none, some 1⟩
        ⟨1, emptyConfig⟩ emptyDB).1.orders.map OrderRow.side = ["HOLD"] ∧
    (processAlertForStrategy okEnv 600 0 0 7 42 ⟨"RELIANCE", "HOLD", none, some 1⟩
        ⟨1, emptyConfig⟩ emptyDB).1.brokerCalls.length = 1 ∧
    (processAlertSimple (some ⟨some true, some ⟨some "token"⟩⟩) (fun _ => .ok ⟨"FY1"⟩)
        7 42 ⟨"RELIANCE", "HOLD", none, some 1⟩ emptyDB).1.orders.map OrderRow.side
      = ["BUY"] := by
  refine ⟨?_, ?_, ?_⟩ <;> rfl

/-- C2 (amended): HOLD alerts never reach an upstream filter — neither
entry point checks for HOLD. In the per-strategy path, a HOLD alert that
passes the symbol, trading-hours and risk gates inserts an Order row whose
side is "HOLD" and places a broker call; in the simplified auto-execute
path, the side of a HOLD alert is coerced to "BUY" and an order is
submitted. -/
theorem hold_not_filtered (alertData : AlertData)
    (hact : alertData.action = "HOLD") :
    (∀ (env : ExecEnv) (now currentPositions : ℕ) (todayPnL : ℚ)
       (userId alertId : ℕ) (strategy : Strategy) (s : DBState),
      isSymbolAllowed alertData.symbol strategy.config = true →
      isWithinTradingHours strategy.config now = true →
      (performRiskChecks alertData strategy.config currentPositions todayPnL).allowed
        = true →
      env.credentials.isSome = true →
      jsTruthyStr ((env.credentials.getD ⟨none⟩).accessToken) = true →
      (processAlertForStrategy env now currentPositions todayPnL
          userId alertId alertData strategy s).1.orders.length = s.orders.length + 1 ∧
      (processAlertForStrategy env now currentPositions todayPnL
          userId alertId alertData strategy s).1.orders.getLast?.map OrderRow.side
        = some "HOLD" ∧
      (processAlertForStrategy env now currentPositions todayPnL
          userId alertId alertData strategy s).1.brokerCalls.length
        = s.brokerCalls.length + 1) ∧
    (∀ (brokerResult : ℕ → Except String FyersResponse) (tok : String)
       (userId alertId : ℕ) (s : DBState) (resp : FyersResponse),
      tok ≠ "" →
      brokerResult s.brokerCalls.length = .ok resp →
      (processAlertSimple (some ⟨some true, some ⟨some tok⟩⟩) brokerResult
          userId alertId alertData s).1.orders.getLast?.map OrderRow.side
        = some "BUY") := by
  constructor
  · intro env now currentPositions todayPnL userId alertId strategy s h1 h2 h3 hcred htok
    rw [processAlertForStrategy_gates_pass env now currentPositions todayPnL
      userId alertId alertData strategy s h1 h2 h3]
    cases hbr : env.brokerResult s.brokerCalls.length with
    | error msg =>
      rw [executeOrder_broker_error_eq env userId alertId strategy.id
        (builtOrderParams alertData strategy.config) s msg hcred htok hbr]
      refine ⟨by simp, ?_, by simp⟩
      simp [List.getLast?_concat, pendingOrderRow, builtOrderParams, hact]
    | ok resp =>
      rw [executeOrder_broker_ok_eq env userId alertId strategy.id
        (builtOrderParams alertData strategy.config) s resp hcred htok hbr]
      refine ⟨by simp, ?_, by simp⟩
      rw [List.map_append]
      simp [List.getLast?_concat, submitUpdate_side, pendingOrderRow,
        builtOrderParams, hact]
  · intro brokerResult tok userId alertId s resp htok hbr
    have htok' : (tok = "") = False := eq_false htok
    simp [processAlertSimple, jsTruthyStr, htok', hbr, hact, List.getLast?_concat]

/-- Witness for C2 (amended): a concrete HOLD alert passing every gate
yields one order with side "HOLD" and one broker call; the simplified path
submits a BUY order for the same HOLD alert. -/
theorem hold_not_filtered_witness :
    (processAlertForStrategy okEnv 600 0 0 7 42 ⟨"TCS", "HOLD", none, some 1⟩
        ⟨1, emptyConfig⟩ emptyDB).1.orders.length = 1 ∧
    (processAlertForStrategy okEnv 600 0 0 7 42 ⟨"TCS", "HOLD", none, some 1⟩
        ⟨1, emptyConfig⟩ emptyDB).1.orders.getLast?.map OrderRow.side = some "HOLD" ∧
    (processAlertForStrategy okEnv 600 0 0 7 42 ⟨"TCS", "HOLD", none, some 1⟩
        ⟨1, emptyConfig⟩ emptyDB).1.brokerCalls.length = 1 ∧
    (processAlertSimple (some ⟨some true, some ⟨some "token"⟩⟩) (fun _ => .ok ⟨"FY1"⟩)
        7 42 ⟨"TCS", "HOLD", none, some 1⟩ emptyDB).1.orders.getLast?.map OrderRow.side
      = some "BUY" := by
  have h := hold_not_filtered ⟨"TCS", "HOLD", none, some 1⟩ rfl
  have hs := h.1 okEnv 600 0 0 7 42 ⟨1, emptyConfig⟩ emptyDB rfl rfl rfl rfl rfl
  have hb := h.2 (fun _ => .ok ⟨"FY1"⟩) "token" 7 42 emptyDB ⟨"FY1"⟩ (by decide) rfl
  exact ⟨hs.1, hs.2.1, hs.2.2, hb⟩

/-- An execution environment whose broker call fails the first time and
succeeds afterwards. -/
def flakyEnv : ExecEnv :=
  ⟨some ⟨some "token"⟩, fun n => if n = 0 then .error "Broker down" else .ok ⟨"FY2"⟩⟩

/-- C8: an exception raised while processing one strategy is caught by the
per-strategy catch: the remaining strategies of the same alert are all
still processed, starting from the state the failing strategy left behind. -/
theorem strategy_error_isolated (env : ExecEnv) (now currentPositions : ℕ)
    (todayPnL : ℚ) (userId alertId : ℕ) (alertData : AlertData)
    (strategy : Strategy) (rest : List Strategy) (s : DBState) (e : String)
    (herr : (processAlertForStrategy env now currentPositions todayPnL
        userId alertId alertData strategy s).2 = .error e) :
    processStrategies env now currentPositions todayPnL userId alertId alertData
        (strategy :: rest) s =
      processStrategies env now currentPositions todayPnL userId alertId alertData
        rest
        (processAlertForStrategy env now currentPositions todayPnL
          userId alertId alertData strategy s).1 := rfl

/-- Witness for C8: the first strategy's broker call throws, yet the second
strategy still executes — the final state holds the failed strategy's
PENDING order followed by the second strategy's SUBMITTED order. -/
theorem strategy_error_isolated_witness :
    (processAlertForStrategy flakyEnv 600 0 0 7 42 ⟨"INFY", "BUY", none, some 1⟩
        ⟨1, emptyConfig⟩ emptyDB).2 = .error "Broker down" ∧
    processStrategies flakyEnv 600 0 0 7 42 ⟨"INFY", "BUY", none, some 1⟩
        [⟨1, emptyConfig⟩, ⟨2, emptyConfig⟩] emptyDB =
      processStrategies flakyEnv 600 0 0 7 42 ⟨"INFY", "BUY", none, some 1⟩
        [⟨2, emptyConfig⟩]
        (processAlertForStrategy flakyEnv 600 0 0 7 42 ⟨"INFY", "BUY", none, some 1⟩
          ⟨1, emptyConfig⟩ emptyDB).1 ∧
    (processStrategies flakyEnv 600 0 0 7 42 ⟨"INFY", "BUY", none, some 1⟩
        [⟨1, emptyConfig⟩, ⟨2, emptyConfig⟩] emptyDB).orders.map OrderRow.status =
      ["PENDING", "SUBMITTED"] := by
  refine ⟨by rfl, ?_, by rfl⟩
  exact strategy_error_isolated flakyEnv 600 0 0 7 42 ⟨"INFY", "BUY", none, some 1⟩
    ⟨1, emptyConfig⟩ [⟨2, emptyConfig⟩] emptyDB "Broker down" (by rfl)

/-- A SUBMITTED order row awaiting reconciliation. -/
def filledOrderRow : OrderRow :=
  ⟨0, 7, some 1, 42, "RELIANCE", "BUY", 1, "MARKET", none, "SUBMITTED", some "FY1"⟩

/-- The broker order-book entry reporting that order FILLED. -/
def filledFyersOrder : FyersOrder := ⟨"FY1", "FILLED", 1, 2505, none⟩

/-- A database holding just the submitted order. -/
def dbWithOrder : DBState := ⟨[filledOrderRow], [], [], none, [], []⟩

/-- The same database with an existing active position for (user 7, RELIANCE). -/
def dbWithOrderAndPosition : DBState :=
  ⟨[filledOrderRow], [], [⟨7, "RELIANCE", 5, 2400, true⟩], none, [], []⟩

/-- Shape of `monitorOrderStatus` when the order is found, carries a broker
order id, credentials resolve, and the order book reports FILLED: status
write first, then `createTradeRecord`, then a normal return of the
originally read row. -/
theorem monitorOrderStatus_filled_eq (credentials : Option Credentials)
    (orderBook : List FyersOrder) (tradeInsertFails : Bool) (orderId : ℕ)
    (s : DBState) (orderData : OrderRow) (fid : String) (fyersOrder : FyersOrder)
    (hfind : s.orders.find? (fun o => o.id = orderId) = some orderData)
    (hfid : orderData.fyersOrderId = some fid)
    (hcred : credentials.isSome = true)
    (hbook : orderBook.find? (fun o => o.id = fid) = some fyersOrder)
    (hstatus : fyersOrder.status = "FILLED") :
    monitorOrderStatus credentials orderBook tradeInsertFails orderId s =
      (createTradeRecord orderData fyersOrder tradeInsertFails
        (setOrderStatus s orderId "FILLED"), .ok orderData) := by
  cases credentials with
  | none => simp at hcred
  | some c =>
    simp [monitorOrderStatus, hfind, hfid, hbook, hstatus]

/-- C1 counterexample: reconciling a FILLED order inserts the Trade row but
touches no Position — with no prior position none is created, and with an
existing active position for (user, symbol) it is left unmerged. -/
theorem monitorOrderStatus_no_position_counterexample :
    (monitorOrderStatus (some ⟨some "token"⟩) [filledFyersOrder] false 0
      dbWithOrder).1.trades = [⟨7, 0, "RELIANCE", "BUY", 1, 2505, 0⟩] ∧
    (monitorOrderStatus (some ⟨some "token"⟩) [filledFyersOrder] false 0
      dbWithOrder).1.positions = [] ∧
    (monitorOrderStatus (some ⟨some "token"⟩) [filledFyersOrder] false 0
      dbWithOrderAndPosition).1.positions = [⟨7, "RELIANCE", 5, 2400, true⟩] := by
  refine ⟨?_, ?_, ?_⟩ <;> rfl

/-- C1 (amended): for a broker-reported FILLED order, one invocation of
`monitorOrderStatus` inserts exactly one Trade row with quantity equal to
the broker's filledQty, price equal to the broker's avgPrice, and charges
equal to the broker-reported charges defaulting to 0 — and performs no
Position write whatsoever: the positions table is returned unchanged. -/
theorem monitorOrderStatus_filled_trade_only (credentials : Option Credentials)
    (orderBook : List FyersOrder) (orderId : ℕ)
    (s : DBState) (orderData : OrderRow) (fid : String) (fyersOrder : FyersOrder)
    (hfind : s.orders.find? (fun o => o.id = orderId) = some orderData)
    (hfid : orderData.fyersOrderId = some fid)
    (hcred : credentials.isSome = true)
    (hbook : orderBook.find? (fun o => o.id = fid) = some fyersOrder)
    (hstatus : fyersOrder.status = "FILLED") :
    (monitorOrderStatus credentials orderBook false orderId s).1.trades =
      s.trades ++ [⟨orderData.userId, orderData.id, orderData.symbol,
        orderData.side, fyersOrder.filledQty, fyersOrder.avgPrice,
        jsOrQ fyersOrder.charges 0⟩] ∧
    (monitorOrderStatus credentials orderBook false orderId s).1.positions =
      s.positions ∧
    (monitorOrderStatus credentials orderBook false orderId s).2 = .ok orderData := by
  rw [monitorOrderStatus_filled_eq credentials orderBook false orderId s orderData
    fid fyersOrder hfind hfid hcred hbook hstatus]
  exact ⟨rfl, rfl, rfl⟩

/-- Witness for C1 (amended) at the concrete FILLED fixture. -/
theorem monitorOrderStatus_filled_trade_only_witness :
    (monitorOrderStatus (some ⟨some "token"⟩) [filledFyersOrder] false 0
      dbWithOrder).1.trades = [⟨7, 0, "RELIANCE", "BUY", 1, 2505, 0⟩] ∧
    (monitorOrderStatus (some ⟨some "token"⟩) [filledFyersOrder] false 0
      dbWithOrder).1.positions = [] := by
  have h := monitorOrderStatus_filled_trade_only (some ⟨some "token"⟩)
    [filledFyersOrder] 0 dbWithOrder filledOrderRow "FY1" filledFyersOrder
    rfl rfl rfl rfl rfl
  exact ⟨h.1, h.2.1⟩

/-- C10: on a broker-reported FILLED order the local row's status is set to
FILLED before the trade insert is attempted, and a failing trade insert is
swallowed inside `createTradeRecord`: `monitorOrderStatus` still returns
normally, leaving a FILLED order with no corresponding Trade row. -/
theorem monitorOrderStatus_insert_failure_swallowed (credentials : Option Credentials)
    (orderBook : List FyersOrder) (orderId : ℕ)
    (s : DBState) (orderData : OrderRow) (fid : String) (fyersOrder : FyersOrder)
    (hfind : s.orders.find? (fun o => o.id = orderId) = some orderData)
    (hfid : orderData.fyersOrderId = some fid)
    (hcred : credentials.isSome = true)
    (hbook : orderBook.find? (fun o => o.id = fid) = some fyersOrder)
    (hstatus : fyersOrder.status = "FILLED") :
    (monitorOrderStatus credentials orderBook true orderId s).1.orders =
      s.orders.map (fun o => if o.id = orderId then { o with status := "FILLED" }
        else o) ∧
    (monitorOrderStatus credentials orderBook true orderId s).1.trades = s.trades ∧
    (monitorOrderStatus credentials orderBook true orderId s).2 = .ok orderData := by
  rw [monitorOrderStatus_filled_eq credentials orderBook true orderId s orderData
    fid fyersOrder hfind hfid hcred hbook hstatus]
  exact ⟨rfl, rfl, rfl⟩

/-- Witness for C10: the fixture order ends FILLED while the trades table
stays empty and the call returns the order row. -/
theorem monitorOrderStatus_insert_failure_swallowed_witness :
    (monitorOrderStatus (some ⟨some "token"⟩) [filledFyersOrder] true 0
      dbWithOrder).1.orders = [{ filledOrderRow with status := "FILLED" }] ∧
    (monitorOrderStatus (some ⟨some "token"⟩) [filledFyersOrder] true 0
      dbWithOrder).1.trades = [] ∧
    (monitorOrderStatus (some ⟨some "token"⟩) [filledFyersOrder] true 0
      dbWithOrder).2 = .ok filledOrderRow := by
  have h := monitorOrderStatus_insert_failure_swallowed (some ⟨some "token"⟩)
    [filledFyersOrder] 0 dbWithOrder filledOrderRow "FY1" filledFyersOrder
    rfl rfl rfl rfl rfl
  exact ⟨h.1, h.2.1, h.2.2⟩
